import Mathlib

/-!
Verification development for the AI-assistant workflow coordinator
(`abk_aia`): a shallow embedding, in Lean 4, of the work-item model
(`src/abk_aia/models.py`), the provider backend and factory
(`src/aia/git_aia_manager.py`) and the workflow coordinator
(`src/aia/workflow_coordinator.py`), together with theorems settling the
specification's claims about them.

Conventions of the embedding:
* Python strings are Lean `String`s; the Python character predicates
  (`str.isalnum`, `str.isspace`, `str.lower`) are embedded exactly on the
  ASCII fragment, which is the fragment all theorems below quantify over.
* Remote side effects (the `gh` / `git` subprocess calls) are modelled by
  response environments: a structure of functions giving the
  `GitOperation` outcome of each primitive backend call.  Functions that
  perform mutating calls additionally return the ordered trace of those
  calls, so sequencing claims become statements about traces.
* Python `raise` (ValueError in the factory) is modelled with `Except`.
-/

namespace Abk

/-- ASCII fragment of Python `str.isalnum` (exact on ASCII characters). -/
def py_isalnum (c : Char) : Bool :=
  (('A' ≤ c && c ≤ 'Z') || ('a' ≤ c && c ≤ 'z') || ('0' ≤ c && c ≤ '9'))

/-- ASCII fragment of Python `str.isspace`: true for space (32),
`\t \n \v \f \r` (9–13) and the separator controls 28–31. -/
def py_isspace (c : Char) : Bool :=
  (9 ≤ c.toNat && c.toNat ≤ 13) || c.toNat = 32 ||
    (28 ≤ c.toNat && c.toNat ≤ 31)

/-- ASCII fragment of Python `str.lower`, one character. -/
def py_tolower (c : Char) : Char :=
  if 'A' ≤ c && c ≤ 'Z' then Char.ofNat (c.toNat + 32) else c

/-- Python `s.lower()` on the ASCII fragment. -/
def py_lower (s : String) : String :=
  ⟨s.data.map py_tolower⟩

/-- Python `s.startswith(p)`: the characters of `p` are a prefix of the
characters of `s`. -/
def py_startswith (s p : String) : Bool :=
  p.data.isPrefixOf s.data

/-- Python `s.split(":", 1)[1]`: everything after the first colon.
Callers in the source only apply it to labels that contain a colon;
on a colon-free string we return `""` (the Python code would raise,
but that branch is unreachable in the source's uses). -/
def py_split_colon_tail (s : String) : String :=
  match s.data.dropWhile (fun c => c ≠ ':') with
  | [] => ""
  | _ :: rest => ⟨rest⟩

/-- Python `s.rstrip("-")` on a character list: drop trailing hyphens. -/
def rstrip_hyphens (l : List Char) : List Char :=
  (l.reverse.dropWhile (fun c => c = '-')).reverse

/-- `models.WorkflowStatus`: the five kanban states. -/
inductive WorkflowStatus where
  | TODO
  | DOING
  | REVIEW
  | TESTING
  | DONE
deriving DecidableEq, Repr

/-- The emoji-prefixed display/wire string of each status
(`models.WorkflowStatus` enum values). -/
def WorkflowStatus.value : WorkflowStatus → String
  | .TODO => "📋 ToDo"
  | .DOING => "🔄 Doing"
  | .REVIEW => "👀 Review"
  | .TESTING => "🧪 Testing"
  | .DONE => "✅ Done"

/-- `git_aia_manager.AiaType`: the five AI assistant roles. -/
inductive AiaType where
  | AI_CODER
  | AI_MARKETEER
  | AI_REVIEWER
  | AI_RESEARCHER
  | AI_TESTER
deriving DecidableEq, Repr

/-- The string tag of each role (`AiaType` enum values). -/
def AiaType.value : AiaType → String
  | .AI_CODER => "ai-coder"
  | .AI_MARKETEER => "ai-marketeer"
  | .AI_REVIEWER => "ai-reviewer"
  | .AI_RESEARCHER => "ai-researcher"
  | .AI_TESTER => "ai-tester"

/-- `git_aia_manager.GitBranchType`: branch prefix codes. -/
inductive GitBranchType where
  | BUG
  | DOCUMENTATION
  | FEATURE
  | RESEARCH
  | TEST
deriving DecidableEq, Repr

/-- The single-letter code of each branch type (`GitBranchType` values). -/
def GitBranchType.value : GitBranchType → String
  | .BUG => "B"
  | .DOCUMENTATION => "D"
  | .FEATURE => "F"
  | .RESEARCH => "R"
  | .TEST => "T"

/-- `models.GitOperation`: the uniform operation-result value. -/
structure GitOperation where
  success : Bool
  message : String
  output : Option String := none
  error : Option String := none
deriving DecidableEq, Repr

/-- Opaque stand-in for Python `datetime` values (the workflow logic never
inspects them; the GitHub parser stores the ISO text it was given, with
`Z` replaced by `+00:00`). -/
structure PyDateTime where
  iso : String
deriving DecidableEq, Repr

/-- `models.Issue`: the work-item record.  `state` is kept as the raw
string the provider returned (the dataclass annotation names an enum but
the GitHub parser stores the JSON string unchecked); `labels` is an
ordered list — label order is semantically relevant for role lookup. -/
structure Issue where
  number : Nat
  title : String
  body : String
  state : String
  labels : List String
  assignees : List String
  created_at : PyDateTime
  updated_at : PyDateTime
  url : String
  project_status : Option WorkflowStatus := none
deriving DecidableEq, Repr

/-- `Issue.get_short_name` on the bare title: keep alphanumeric/space
characters, replace spaces by hyphens, lowercase, and if the result
exceeds 30 characters truncate to 30 and strip trailing hyphens. -/
def short_name_of_title (title : String) : String :=
  let kept := title.data.filter (fun c => py_isalnum c || py_isspace c)
  let hyphenated := kept.map (fun c => if c = ' ' then '-' else c)
  let lowered := hyphenated.map py_tolower
  if lowered.length > 30 then ⟨rstrip_hyphens (lowered.take 30)⟩ else ⟨lowered⟩

/-- `models.Issue.get_short_name`. -/
def Issue.get_short_name (i : Issue) : String :=
  short_name_of_title i.title

/-- `models.Issue.has_label`: exact membership. -/
def Issue.has_label (i : Issue) (label : String) : Bool :=
  i.labels.contains label

/-- `models.Issue.is_assigned_to_ai`: any label starts with `assigned:ai-`. -/
def Issue.is_assigned_to_ai (i : Issue) : Bool :=
  i.labels.any (fun l => py_startswith l "assigned:ai-")

/-- `models.Issue.get_assigned_ai`: the first label starting with
`assigned:ai-`, with everything after the first colon returned
(`label.split(":", 1)[1]`), or `none`. -/
def Issue.get_assigned_ai (i : Issue) : Option String :=
  (i.labels.find? (fun l => py_startswith l "assigned:ai-")).map py_split_colon_tail

/-- `models.WorkflowConfig`. -/
structure WorkflowConfig where
  repo_owner : String
  repo_name : String
  project_number : Option Nat := none
  default_base_branch : String := "main"
deriving DecidableEq, Repr

/-- `WorkflowConfig.repo_full_name`: `"owner/name"`. -/
def WorkflowConfig.repo_full_name (c : WorkflowConfig) : String :=
  c.repo_owner ++ "/" ++ c.repo_name

/-- The five type labels used for branch-type derivation, in the fixed
order of `git_aia_manager.py`'s `type_labels` set literal. -/
def type_labels : List String :=
  ["bug", "documentation", "feature", "research", "test"]

/-- The branch type matched by one type label
(the `match type_label:` cases of `_get_branch_type_from_labels`). -/
def branch_type_of_label : String → GitBranchType
  | "bug" => GitBranchType.BUG
  | "documentation" => GitBranchType.DOCUMENTATION
  | "feature" => GitBranchType.FEATURE
  | "research" => GitBranchType.RESEARCH
  | "test" => GitBranchType.TEST
  | _ => GitBranchType.FEATURE

/-- `AiaManagerBase._get_branch_type_from_labels`: intersect the issue's
labels with the five type labels; default FEATURE when the intersection
is empty.  The source pops an arbitrary member of the intersection set;
this embedding takes the first in `type_labels` order, which coincides
with the source whenever at most one type label is present — all the
branch-typing results below assume that. -/
def get_branch_type_from_labels (labels : List String) : GitBranchType :=
  match type_labels.filter (fun t => labels.contains t) with
  | [] => GitBranchType.FEATURE
  | t :: _ => branch_type_of_label t

/-- `AiaManagerBase.generate_branch_name`:
`{branch_type}/{issue_number}/{short_name}`. -/
def generate_branch_name (issue : Issue) : String :=
  (get_branch_type_from_labels issue.labels).value ++ "/" ++
    toString issue.number ++ "/" ++ issue.get_short_name

/-- One label object of the provider's JSON (`label["name"]`). -/
structure RawLabel where
  name : String
deriving DecidableEq, Repr

/-- One assignee object of the provider's JSON (`assignee["login"]`). -/
structure RawAssignee where
  login : String
deriving DecidableEq, Repr

/-- One issue record of the provider's JSON, with the fields the GitHub
backend requests (`number,title,body,state,labels,assignees,createdAt,
updatedAt,url`). -/
structure RawIssue where
  number : Nat
  title : String
  body : String
  state : String
  labels : List RawLabel
  assignees : List RawAssignee
  createdAt : String
  updatedAt : String
  url : String
deriving DecidableEq, Repr

/-- `GitHubAiaManager._parse_issue_data`: build an `Issue` from provider
JSON.  Note it passes no `project_status`, so the dataclass default
`None` applies. -/
def parse_issue_data (d : RawIssue) : Issue :=
  { number := d.number
    title := d.title
    body := d.body
    state := d.state
    labels := d.labels.map RawLabel.name
    assignees := d.assignees.map RawAssignee.login
    created_at := ⟨(d.createdAt.replace "Z" "+00:00")⟩
    updated_at := ⟨(d.updatedAt.replace "Z" "+00:00")⟩
    url := d.url }

/-- `GitHubAiaManager.get_issues` after a successful `gh issue list`
call that returned `data`: parse every record and keep those matching
the optional status filter (`status is None or issue.project_status ==
status`). -/
def get_issues (data : List RawIssue) (status : Option WorkflowStatus) :
    List Issue :=
  (data.map parse_issue_data).filter
    (fun issue => status = none || issue.project_status = status)

/-- One recorded mutating backend call, with the arguments the source
passes.  Read-only calls (issue fetches, column listings) are modelled
by environment lookups and not recorded. -/
inductive Call where
  | update_issue_status (issue : Issue) (s : WorkflowStatus)
  | assign_to_ai (issue : Issue) (t : AiaType)
  | add_label (issue : Issue) (label : String)
  | remove_label (issue : Issue) (label : String)
  | create_branch (issue : Issue)
  | create_pr (title body head base : String)
  | comment_on_pr (repo : String) (pr_number : Nat) (message : String)
deriving DecidableEq, Repr

/-- Outcomes of the primitive label operations of the GitHub backend
(each a `gh issue edit` subprocess round trip). -/
structure LabelEnv where
  remove_label_res : String → GitOperation
  add_label_res : String → GitOperation

/-- `GitHubAiaManager.assign_to_ai`: for each label of the issue starting
with `assigned:ai-`, call `remove_label_from_issue` (its result is
discarded by the source); then call `add_label_to_issue` with
`assigned:{ai_type.value}` and return that call's result.  Returns the
result together with the ordered trace of the label calls made. -/
def assign_to_ai (env : LabelEnv) (issue : Issue) (ai_type : AiaType) :
    GitOperation × List Call :=
  let removals := (issue.labels.filter
    (fun l => py_startswith l "assigned:ai-")).map
      (fun l => Call.remove_label issue l)
  let new_label := "assigned:" ++ ai_type.value
  (env.add_label_res new_label, removals ++ [Call.add_label issue new_label])

/-- The remote label state after `assign_to_ai` when every underlying
label call succeeds: each `assigned:ai-` label has been removed and the
new `assigned:{role}` label appended. -/
def assign_to_ai_labels (labels : List String) (ai_type : AiaType) :
    List String :=
  labels.filter (fun l => ! py_startswith l "assigned:ai-") ++
    ["assigned:" ++ ai_type.value]

/-- The three provider variants the factory can construct, each holding
the role and config it was constructed with. -/
inductive AiaManager where
  | github (aia_type : AiaType) (config : WorkflowConfig)
  | gitlab (aia_type : AiaType) (config : WorkflowConfig)
  | bitbucket (aia_type : AiaType) (config : WorkflowConfig)
deriving DecidableEq, Repr

/-- `AiaManagerFactory.create_manager`: match on `provider.lower()`;
the default case raises `ValueError(f"Unsupported Git provider:
{provider}")`, modelled as `Except.error` carrying that message. -/
def create_manager (provider : String) (aia_type : AiaType)
    (config : WorkflowConfig) : Except String AiaManager :=
  match py_lower provider with
  | "github" => .ok (.github aia_type config)
  | "gitlab" => .ok (.gitlab aia_type config)
  | "bitbucket" => .ok (.bitbucket aia_type config)
  | _ => .error ("Unsupported Git provider: " ++ provider)

/-- Outcomes of the backend calls a `WorkflowCoordinator` makes, as seen
at the manager interface (each is one remote round trip of the GitHub
backend; the coordinator holds one manager per role, all sharing the
same provider and config, so one response environment suffices). -/
structure ManagerEnv where
  get_issue_res : Nat → Option Issue
  update_issue_status_res : Issue → WorkflowStatus → GitOperation
  assign_to_ai_res : Issue → AiaType → GitOperation
  create_branch_res : Issue → GitOperation
  create_pr_res : String → String → String → String → GitOperation
  remove_label_res : Issue → String → GitOperation
  get_issues_in_column_res : WorkflowStatus → List Issue
  comment_on_pr_res : String → Nat → String → GitOperation

/-- `WorkflowCoordinator.start_coder_workflow`: fetch the issue, require
board status ToDo, then move to Doing, assign to ai-coder, create the
branch; the first failing sub-step's result is returned as is.  The
second component is the ordered trace of mutating calls performed. -/
def start_coder_workflow (env : ManagerEnv) (issue_number : Nat) :
    GitOperation × List Call :=
  match env.get_issue_res issue_number with
  | none =>
      ({ success := false
         message := "Issue " ++ toString issue_number ++ " not found" }, [])
  | some issue =>
      if issue.project_status ≠ some WorkflowStatus.TODO then
        ({ success := false
           message := "Issue " ++ toString issue_number ++
             " is not in ToDo status" }, [])
      else
        let r1 := env.update_issue_status_res issue WorkflowStatus.DOING
        let t1 := [Call.update_issue_status issue WorkflowStatus.DOING]
        if ¬ r1.success then (r1, t1)
        else
          let r2 := env.assign_to_ai_res issue AiaType.AI_CODER
          let t2 := t1 ++ [Call.assign_to_ai issue AiaType.AI_CODER]
          if ¬ r2.success then (r2, t2)
          else
            let r3 := env.create_branch_res issue
            let t3 := t2 ++ [Call.create_branch issue]
            if ¬ r3.success then (r3, t3)
            else
              ({ success := true
                 message := "Started coder workflow for issue " ++
                   toString issue_number
                 output := r3.output }, t3)

/-- `WorkflowCoordinator.complete_tester_workflow`: fetch the issue,
require assignment to ai-tester, then create the PR (head = generated
branch name, base = configured default base branch), move to Done, and
remove the `assigned:ai-tester` label; the first failing sub-step's
result is returned as is.  The second component is the ordered trace of
mutating calls performed. -/
def complete_tester_workflow (env : ManagerEnv) (config : WorkflowConfig)
    (issue_number : Nat) (pr_title pr_body : String) :
    GitOperation × List Call :=
  match env.get_issue_res issue_number with
  | none =>
      ({ success := false
         message := "Issue " ++ toString issue_number ++ " not found" }, [])
  | some issue =>
      if issue.get_assigned_ai ≠ some AiaType.AI_TESTER.value then
        ({ success := false
           message := "Issue " ++ toString issue_number ++
             " is not assigned to ai-tester" }, [])
      else
        let branch_name := generate_branch_name issue
        let r1 := env.create_pr_res pr_title pr_body branch_name
          config.default_base_branch
        let t1 := [Call.create_pr pr_title pr_body branch_name
          config.default_base_branch]
        if ¬ r1.success then (r1, t1)
        else
          let r2 := env.update_issue_status_res issue WorkflowStatus.DONE
          let t2 := t1 ++ [Call.update_issue_status issue WorkflowStatus.DONE]
          if ¬ r2.success then (r2, t2)
          else
            let r3 := env.remove_label_res issue
              ("assigned:" ++ AiaType.AI_TESTER.value)
            let t3 := t2 ++ [Call.remove_label issue
              ("assigned:" ++ AiaType.AI_TESTER.value)]
            if ¬ r3.success then (r3, t3)
            else
              ({ success := true
                 message := "Completed tester workflow for issue " ++
                   toString issue_number ++ ", PR created" }, t3)

/-- The progress-comment text `trigger_ai_reviewer` posts (its leading
emoji appears in mojibake encoding in the source bytes). -/
def reviewer_comment_text : String :=
  "🔍 ai-reviewer started reviewing this issue..."

/-- The progress-comment text `trigger_ai_tester` posts (its leading
emoji appears in mojibake encoding in the source bytes). -/
def tester_comment_text : String :=
  "🧪 ai-tester started testing this issue..."

/-- `WorkflowCoordinator.trigger_ai_reviewer`: take the first issue of
the Review column and post a progress comment on it.  A failed comment
is only logged as a warning — the source returns the success result in
either case. -/
def trigger_ai_reviewer (env : ManagerEnv) (config : WorkflowConfig) :
    GitOperation × List Call :=
  match env.get_issues_in_column_res WorkflowStatus.REVIEW with
  | [] =>
      ({ success := false
         message := "No issues in Review column for ai-reviewer" }, [])
  | issue :: _ =>
      ({ success := true
         message := "ai-reviewer started reviewing issue #" ++
           toString issue.number ++ ": " ++ issue.title
         output := some ("issue_" ++ toString issue.number) },
       [Call.comment_on_pr config.repo_full_name issue.number
         reviewer_comment_text])

/-- `WorkflowCoordinator.trigger_ai_tester`: take the first issue of the
Testing column and post a progress comment on it.  A failed comment is
only logged as a warning — the source returns the success result in
either case. -/
def trigger_ai_tester (env : ManagerEnv) (config : WorkflowConfig) :
    GitOperation × List Call :=
  match env.get_issues_in_column_res WorkflowStatus.TESTING with
  | [] =>
      ({ success := false
         message := "No issues in Testing column for ai-tester" }, [])
  | issue :: _ =>
      ({ success := true
         message := "ai-tester started testing issue #" ++
           toString issue.number ++ ": " ++ issue.title
         output := some ("issue_" ++ toString issue.number) },
       [Call.comment_on_pr config.repo_full_name issue.number
         tester_comment_text])

/-- One step of `get_workflow_status`'s counting loop: an issue with a
set (truthy) `project_status` increments that status's bucket, an issue
with `None` increments nothing. -/
def status_counts_step (counts : WorkflowStatus → Nat) (issue : Issue) :
    WorkflowStatus → Nat :=
  match issue.project_status with
  | some s => fun t => if t = s then counts t + 1 else counts t
  | none => counts

/-- `WorkflowCoordinator.get_workflow_status` applied to the issue list
the coder manager's unfiltered `get_issues()` returned: a dictionary
over all five `WorkflowStatus` values, each bucket initialized to zero,
then incremented per fetched issue with a set status. -/
def get_workflow_status (all_issues : List Issue) : WorkflowStatus → Nat :=
  all_issues.foldl status_counts_step (fun _ => 0)

/-- The claim's wording of `assignedRole`, kept for the refinement
comparison with `Issue.get_assigned_ai`: scan the labels for the bare
prefix `assigned:` and return the suffix of the first match. -/
def assignedRole_spec (i : Issue) : Option String :=
  (i.labels.find? (fun l => py_startswith l "assigned:")).map py_split_colon_tail

/-- The claim's wording of `assignToRole`'s label effect, kept for the
refinement comparison with `assign_to_ai_labels`: remove every existing
`assigned:`-prefixed label, then add the one new `assigned:{role}`. -/
def assignToRole_spec_labels (labels : List String) (ai_type : AiaType) :
    List String :=
  labels.filter (fun l => ! py_startswith l "assigned:") ++
    ["assigned:" ++ ai_type.value]

/-- A fixed timestamp for concrete test issues. -/
def sample_time : PyDateTime := ⟨"2025-01-01T00:00:00+00:00"⟩

/-- A concrete issue with the given number, title, labels and board
status, used to instantiate theorems at explicit inputs. -/
def sample_issue (number : Nat) (title : String) (labels : List String)
    (st : Option WorkflowStatus) : Issue :=
  { number := number
    title := title
    body := ""
    state := "OPEN"
    labels := labels
    assignees := []
    created_at := sample_time
    updated_at := sample_time
    url := "https://example.invalid/issue"
    project_status := st }

/-- A successful backend-operation result for concrete environments. -/
def op_ok : GitOperation := { success := true, message := "ok" }

/-- A failed backend-operation result for concrete environments. -/
def op_fail : GitOperation :=
  { success := false, message := "boom", error := some "boom" }

/-- The character alphabet `[a-z0-9-]` the specification allots to
slugs. -/
def slug_char_ok (c : Char) : Bool :=
  c = '-' || ('a' ≤ c && c ≤ 'z') || ('0' ≤ c && c ≤ '9')

/-- A concrete provider-side issue record for instantiating theorems. -/
def sample_raw : RawIssue :=
  { number := 7
    title := "Add user auth"
    body := ""
    state := "OPEN"
    labels := [⟨"bug"⟩]
    assignees := []
    createdAt := "2025-01-01T00:00:00Z"
    updatedAt := "2025-01-01T00:00:00Z"
    url := "https://example.invalid/7" }

/-- An environment whose issue fetch returns the parse of `sample_raw`
and whose mutating calls all succeed. -/
def parsed_env : ManagerEnv :=
  { get_issue_res := fun _ => some (parse_issue_data sample_raw)
    update_issue_status_res := fun _ _ => op_ok
    assign_to_ai_res := fun _ _ => op_ok
    create_branch_res := fun _ => op_ok
    create_pr_res := fun _ _ _ _ => op_ok
    remove_label_res := fun _ _ => op_ok
    get_issues_in_column_res := fun _ => []
    comment_on_pr_res := fun _ _ _ => op_ok }

/-- A concrete workflow configuration. -/
def sample_config : WorkflowConfig :=
  { repo_owner := "alexbigkid", repo_name := "abk_aia" }

/-- A concrete issue assigned to ai-tester, sitting in Testing. -/
def tester_issue : Issue :=
  sample_issue 9 "Add user auth" ["assigned:ai-tester"]
    (some WorkflowStatus.TESTING)

/-- An environment fetching `tester_issue` whose calls all succeed. -/
def tester_env_ok : ManagerEnv :=
  { get_issue_res := fun _ => some tester_issue
    update_issue_status_res := fun _ _ => op_ok
    assign_to_ai_res := fun _ _ => op_ok
    create_branch_res := fun _ => op_ok
    create_pr_res := fun _ _ _ _ => op_ok
    remove_label_res := fun _ _ => op_ok
    get_issues_in_column_res := fun _ => []
    comment_on_pr_res := fun _ _ _ => op_ok }

/-- Like `tester_env_ok` but with PR creation failing. -/
def tester_env_prfail : ManagerEnv :=
  { tester_env_ok with create_pr_res := fun _ _ _ _ => op_fail }

/-- An environment fetching an issue whose board status is Doing. -/
def doing_env : ManagerEnv :=
  { tester_env_ok with
    get_issue_res := fun _ =>
      some (sample_issue 4 "Fix bug" ["bug"] (some WorkflowStatus.DOING)) }

/-- A label environment whose removals fail but whose addition works. -/
def fail_remove_label_env : LabelEnv :=
  { remove_label_res := fun _ => op_fail
    add_label_res := fun _ => op_ok }

/-- A concrete issue carrying an `assigned:ai-researcher` label. -/
def researcher_issue : Issue :=
  sample_issue 3 "Research topic" ["assigned:ai-researcher"] none

/-- A concrete issue sitting in the Review column. -/
def review_issue : Issue :=
  sample_issue 11 "Review me" ["assigned:ai-reviewer"]
    (some WorkflowStatus.REVIEW)

/-- An environment whose column listing returns `review_issue` and whose
comment call fails. -/
def comment_fail_env : ManagerEnv :=
  { tester_env_ok with
    get_issues_in_column_res := fun _ => [review_issue]
    comment_on_pr_res := fun _ _ _ => op_fail }

/-- A concrete ToDo issue. -/
def todo_issue : Issue :=
  sample_issue 2 "New feature" [] (some WorkflowStatus.TODO)

/-- An environment fetching `todo_issue` whose ai-coder assignment
fails. -/
def coder_fail_env : ManagerEnv :=
  { tester_env_ok with
    get_issue_res := fun _ => some todo_issue
    assign_to_ai_res := fun _ _ => op_fail }

/-- `Char.ofNat` round-trips through `toNat` below the surrogate range. -/
theorem char_toNat_ofNat (n : Nat) (h : n < 55296) :
    (Char.ofNat n).toNat = n := by
  simp [Char.ofNat, Nat.isValidChar, h, Char.ofNatAux, Char.toNat,
    UInt32.toNat, UInt32.ofNatCore]

/-- Lowercasing an ASCII alphanumeric character lands in `[a-z0-9]`. -/
theorem slug_char_ok_tolower (c : Char) (h : py_isalnum c = true) :
    slug_char_ok (py_tolower c) = true := by
  simp only [py_isalnum, Bool.or_eq_true, Bool.and_eq_true,
    decide_eq_true_eq] at h
  have hN : ((65 ≤ c.toNat ∧ c.toNat ≤ 90) ∨
      (97 ≤ c.toNat ∧ c.toNat ≤ 122)) ∨
      (48 ≤ c.toNat ∧ c.toNat ≤ 57) := h
  unfold py_tolower
  by_cases hu : ('A' ≤ c && c ≤ 'Z') = true
  · rw [if_pos hu]
    simp only [Bool.and_eq_true, decide_eq_true_eq] at hu
    have hn1 : 65 ≤ c.toNat := hu.1
    have hn2 : c.toNat ≤ 90 := hu.2
    have hv : c.toNat + 32 < 55296 := by omega
    have ht : (Char.ofNat (c.toNat + 32)).toNat = c.toNat + 32 :=
      char_toNat_ofNat _ hv
    simp only [slug_char_ok, Bool.or_eq_true, Bool.and_eq_true,
      decide_eq_true_eq]
    refine Or.inl (Or.inr ⟨?_, ?_⟩)
    · show 97 ≤ (Char.ofNat (c.toNat + 32)).toNat
      omega
    · show (Char.ofNat (c.toNat + 32)).toNat ≤ 122
      omega
  · rw [if_neg hu]
    simp only [Bool.and_eq_true, decide_eq_true_eq, not_and, not_le] at hu
    have hu' : 65 ≤ c.toNat → 90 < c.toNat := hu
    simp only [slug_char_ok, Bool.or_eq_true, Bool.and_eq_true,
      decide_eq_true_eq]
    rcases hN with (hc | hc) | hc
    · omega
    · exact Or.inl (Or.inr ⟨hc.1, hc.2⟩)
    · exact Or.inr ⟨hc.1, hc.2⟩

/-- Lowercasing an ASCII alphanumeric character never yields `-`. -/
theorem py_tolower_ne_hyphen (c : Char) (h : py_isalnum c = true) :
    py_tolower c ≠ '-' := by
  simp only [py_isalnum, Bool.or_eq_true, Bool.and_eq_true,
    decide_eq_true_eq] at h
  have hN : ((65 ≤ c.toNat ∧ c.toNat ≤ 90) ∨
      (97 ≤ c.toNat ∧ c.toNat ≤ 122)) ∨
      (48 ≤ c.toNat ∧ c.toNat ≤ 57) := h
  unfold py_tolower
  intro heq
  have htoNat : (py_tolower c).toNat = 45 → False := by
    intro hx
    unfold py_tolower at hx
    by_cases hu : ('A' ≤ c && c ≤ 'Z') = true
    · rw [if_pos hu] at hx
      simp only [Bool.and_eq_true, decide_eq_true_eq] at hu
      have hn1 : 65 ≤ c.toNat := hu.1
      have hn2 : c.toNat ≤ 90 := hu.2
      have hv : c.toNat + 32 < 55296 := by omega
      rw [char_toNat_ofNat _ hv] at hx
      omega
    · rw [if_neg hu] at hx
      simp only [Bool.and_eq_true, decide_eq_true_eq, not_and, not_le] at hu
      have hu' : 65 ≤ c.toNat → 90 < c.toNat := hu
      rcases hN with (hc | hc) | hc <;> omega
  apply htoNat
  unfold py_tolower
  rw [heq]
  decide

/-- `rstrip_hyphens` never lengthens a list. -/
theorem rstrip_hyphens_length_le (l : List Char) :
    (rstrip_hyphens l).length ≤ l.length := by
  unfold rstrip_hyphens
  rw [List.length_reverse]
  calc (l.reverse.dropWhile (fun c => c = '-')).length
      ≤ l.reverse.length := (List.dropWhile_sublist _).length_le
    _ = l.length := List.length_reverse l

/-- Members of `rstrip_hyphens l` are members of `l`. -/
theorem mem_of_mem_rstrip_hyphens {c : Char} {l : List Char}
    (h : c ∈ rstrip_hyphens l) : c ∈ l := by
  unfold rstrip_hyphens at h
  rw [List.mem_reverse] at h
  have := (List.dropWhile_sublist (l := l.reverse)
    (p := fun c => c = '-')).mem h
  rwa [List.mem_reverse] at this

/-- The head surviving a `dropWhile` does not satisfy the predicate. -/
theorem head?_dropWhile_not {α : Type} (p : α → Bool) (l : List α) (a : α)
    (h : (l.dropWhile p).head? = some a) : p a = false := by
  induction l with
  | nil => cases h
  | cons x xs ih =>
      by_cases hx : p x = true
      · rw [List.dropWhile_cons_of_pos hx] at h
        exact ih h
      · rw [List.dropWhile_cons_of_neg hx] at h
        cases h
        simpa using hx

/-- After stripping trailing hyphens the last character is not `-`. -/
theorem rstrip_hyphens_getLast?_ne (l : List Char) :
    (rstrip_hyphens l).getLast? ≠ some '-' := by
  unfold rstrip_hyphens
  rw [List.getLast?_reverse]
  intro h
  have := head?_dropWhile_not _ _ _ h
  simp at this

/-- `getLast? = some a` implies membership. -/
theorem mem_of_getLast?_some {α : Type} {l : List α} {a : α}
    (h : l.getLast? = some a) : a ∈ l := by
  rcases List.mem_getLast?_eq_getLast (Option.mem_def.mpr h) with ⟨hne, heq⟩
  rw [heq]
  exact List.getLast_mem hne

/-- C6 (counterexample): `get_short_name` is claimed to emit only
`[a-z0-9-]` and never a trailing hyphen, but a title ending in a space
and short enough to skip truncation yields a trailing hyphen, and a tab
in the title survives untouched (only literal spaces are hyphenated,
while every Python whitespace character passes the filter). -/
theorem C6_counterexample :
    (sample_issue 1 "hi " [] none).get_short_name = "hi-" ∧
    (sample_issue 1 "hi " [] none).get_short_name.data.getLast? =
      some '-' ∧
    (sample_issue 2 "a\tb" [] none).get_short_name = "a\tb" ∧
    (sample_issue 2 "a\tb" [] none).get_short_name.data.any
      (fun c => ! slug_char_ok c) = true := by
  decide

/-- C6 (amended): `get_short_name` always returns at most 30 characters
and is deterministic in the title; for titles made of ASCII
alphanumerics and spaces every output character lies in `[a-z0-9-]`,
and the output additionally never ends in `-` provided the title does
not end in a space (the trailing-hyphen strip runs only on the
truncation path). -/
theorem C6_short_name :
    (∀ i : Issue, (i.get_short_name).length ≤ 30) ∧
    (∀ i j : Issue, i.title = j.title →
      i.get_short_name = j.get_short_name) ∧
    (∀ i : Issue, (∀ c ∈ i.title.data, py_isalnum c = true ∨ c = ' ') →
      (∀ c ∈ (i.get_short_name).data, slug_char_ok c = true) ∧
      (i.title.data.getLast? ≠ some ' ' →
        (i.get_short_name).data.getLast? ≠ some '-')) := by
  refine ⟨?_, ?_, ?_⟩
  · intro i
    unfold Issue.get_short_name short_name_of_title
    set L := ((i.title.data.filter
      (fun c => py_isalnum c || py_isspace c)).map
        (fun c => if c = ' ' then '-' else c)).map py_tolower with hL
    by_cases h : L.length > 30
    · rw [if_pos h]
      show (rstrip_hyphens (L.take 30)).length ≤ 30
      calc (rstrip_hyphens (L.take 30)).length
          ≤ (L.take 30).length := rstrip_hyphens_length_le _
        _ ≤ 30 := by rw [List.length_take]; omega
    · rw [if_neg h]
      show L.length ≤ 30
      omega
  · intro i j h
    unfold Issue.get_short_name
    rw [h]
  · intro i hall
    have hfilter : i.title.data.filter
        (fun c => py_isalnum c || py_isspace c) = i.title.data := by
      refine List.filter_eq_self.mpr ?_
      intro a ha
      rcases hall a ha with h | h
      · simp [h]
      · subst h
        decide
    have hmemL : ∀ c ∈ ((i.title.data.map
        (fun c => if c = ' ' then '-' else c)).map py_tolower),
        slug_char_ok c = true := by
      intro c hc
      rw [List.mem_map] at hc
      obtain ⟨d1, hd1, rfl⟩ := hc
      rw [List.mem_map] at hd1
      obtain ⟨d, hd, rfl⟩ := hd1
      by_cases hsp : d = ' '
      · subst hsp
        decide
      · rw [if_neg hsp]
        rcases hall d hd with h | h
        · exact slug_char_ok_tolower d h
        · exact absurd h hsp
    constructor
    · intro c hc
      unfold Issue.get_short_name short_name_of_title at hc
      rw [hfilter] at hc
      by_cases h : ((i.title.data.map
          (fun c => if c = ' ' then '-' else c)).map py_tolower).length >
          30
      · rw [if_pos h] at hc
        have hc2 := mem_of_mem_rstrip_hyphens hc
        exact hmemL c ((List.take_sublist _ _).mem hc2)
      · rw [if_neg h] at hc
        exact hmemL c hc
    · intro hlast
      unfold Issue.get_short_name short_name_of_title
      rw [hfilter]
      by_cases h : ((i.title.data.map
          (fun c => if c = ' ' then '-' else c)).map py_tolower).length >
          30
      · rw [if_pos h]
        exact rstrip_hyphens_getLast?_ne _
      · rw [if_neg h]
        show ((i.title.data.map
          (fun c => if c = ' ' then '-' else c)).map py_tolower).getLast? ≠
            some '-'
        rw [List.getLast?_map, List.getLast?_map]
        cases htl : i.title.data.getLast? with
        | none => exact fun hx => Option.noConfusion hx
        | some d =>
            have hdmem : d ∈ i.title.data := mem_of_getLast?_some htl
            have hdsp : d ≠ ' ' := by
              intro hdd
              exact hlast (by rw [htl, hdd])
            have hdal : py_isalnum d = true := by
              rcases hall d hdmem with h1 | h1
              · exact h1
              · exact absurd h1 hdsp
            intro hcontra
            rw [Option.map_some', Option.map_some', if_neg hdsp] at hcontra
            have : py_tolower d = '-' := by
              injection hcontra
            exact py_tolower_ne_hyphen d hdal this

/-- C6 (witness): the amended bounds, alphabet and trailing-hyphen
guarantees evaluated on the concrete title `"Add user auth"`. -/
theorem C6_short_name_witness :
    (sample_issue 1 "Add user auth" [] none).get_short_name.length ≤ 30 ∧
    slug_char_ok 'a' = true ∧
    (sample_issue 1 "Add user auth" [] none).get_short_name.data.getLast? ≠
      some '-' :=
  ⟨C6_short_name.1 (sample_issue 1 "Add user auth" [] none),
   (C6_short_name.2.2 (sample_issue 1 "Add user auth" [] none)
      (by decide)).1 'a' (by decide),
   (C6_short_name.2.2 (sample_issue 1 "Add user auth" [] none)
      (by decide)).2 (by decide)⟩

/-- `find?` over a list whose first satisfying element is `lab` returns
`lab`. -/
theorem find?_first_after {α : Type} (p : α → Bool) (pre post : List α)
    (lab : α) (hpre : ∀ l ∈ pre, p l = false) (hlab : p lab = true) :
    (pre ++ lab :: post).find? p = some lab := by
  induction pre with
  | nil => simp [List.find?_cons, hlab]
  | cons q qs ih =>
      have hq : p q = false := hpre q (List.mem_cons_self q qs)
      have hqs : ∀ l ∈ qs, p l = false :=
        fun l hl => hpre l (List.mem_cons_of_mem q hl)
      simpa [List.find?_cons, hq] using ih hqs

/-- Every role tag starts with `ai-`, so every assignment label the
backend writes starts with `assigned:ai-`. -/
theorem assignment_label_is_ai (t : AiaType) :
    py_startswith ("assigned:" ++ t.value) "assigned:ai-" = true := by
  cases t <;> decide

/-- C2 (counterexample): on an item whose only label is `assigned:human`
— an `assigned:*` label that does not carry the `assigned:ai-` prefix —
`assign_to_ai` removes nothing, so afterward the item carries two
`assigned:*` labels, not exactly one as the claim states. -/
theorem C2_counterexample :
    assign_to_ai_labels ["assigned:human"] AiaType.AI_CODER =
      ["assigned:human", "assigned:ai-coder"] ∧
    ((assign_to_ai_labels ["assigned:human"] AiaType.AI_CODER).filter
      (fun l => py_startswith l "assigned:")).length = 2 := by
  decide

/-- C2 (amended): `assign_to_ai` removes every existing `assigned:ai-*`
label (not every `assigned:*` label) and then adds exactly one new
`assigned:{role}` label, so afterward the item carries exactly one
`assigned:ai-*` label — the new one; in particular an item carrying
`assigned:ai-researcher` reassigned to coder ends with only
`assigned:ai-coder`. -/
theorem C2_assign_to_ai_reassignment :
    (∀ (labels : List String) (t : AiaType),
      (assign_to_ai_labels labels t).filter
        (fun l => py_startswith l "assigned:ai-") = ["assigned:" ++ t.value]) ∧
    assign_to_ai_labels ["assigned:ai-researcher"] AiaType.AI_CODER =
      ["assigned:ai-coder"] := by
  constructor
  · intro labels t
    unfold assign_to_ai_labels
    rw [List.filter_append]
    have h1 : (labels.filter (fun l => ! py_startswith l "assigned:ai-")).filter
        (fun l => py_startswith l "assigned:ai-") = [] := by
      rw [List.filter_filter]
      simp
    rw [h1]
    simp [assignment_label_is_ai t]
  · decide

/-- C7 (counterexample): `get_assigned_ai` scans for the prefix
`assigned:ai-`, not the bare prefix `assigned:` of the claim's wording:
on an item labelled only `assigned:human` the code yields no role while
the claimed scan yields `human`. -/
theorem C7_counterexample :
    Issue.get_assigned_ai
      (sample_issue 1 "t" ["assigned:human"] none) = none ∧
    assignedRole_spec
      (sample_issue 1 "t" ["assigned:human"] none) = some "human" := by
  decide

/-- C7 (amended): `get_assigned_ai` scans the item's labels for the
`assigned:ai-` prefix and returns the suffix after the colon of the
first matching label in label order, or `none` if no label matches; for
a work item with labels `["assigned:ai-researcher","assigned:ai-coder"]`
it returns `"ai-researcher"`. -/
theorem C7_assigned_role :
    (∀ i : Issue,
      (∀ l ∈ i.labels, py_startswith l "assigned:ai-" = false) →
      i.get_assigned_ai = none) ∧
    (∀ (i : Issue) (pre post : List String) (lab : String),
      i.labels = pre ++ lab :: post →
      (∀ l ∈ pre, py_startswith l "assigned:ai-" = false) →
      py_startswith lab "assigned:ai-" = true →
      i.get_assigned_ai = some (py_split_colon_tail lab)) ∧
    Issue.get_assigned_ai
      (sample_issue 1 "t" ["assigned:ai-researcher", "assigned:ai-coder"]
        none) = some "ai-researcher" := by
  refine ⟨?_, ?_, by decide⟩
  · intro i h
    unfold Issue.get_assigned_ai
    rw [List.find?_eq_none.mpr]
    · rfl
    · intro l hl
      simp [h l hl]
  · intro i pre post lab hlabels hpre hlab
    unfold Issue.get_assigned_ai
    rw [hlabels, find?_first_after (fun l => py_startswith l "assigned:ai-")
      pre post lab hpre hlab]
    rfl

/-- C7 (witness): the amended characterization instantiated on the
two-label example item. -/
theorem C7_assigned_role_witness :
    Issue.get_assigned_ai
      (sample_issue 1 "t" ["assigned:ai-researcher", "assigned:ai-coder"]
        none) = some (py_split_colon_tail "assigned:ai-researcher") :=
  C7_assigned_role.2.1
    (sample_issue 1 "t" ["assigned:ai-researcher", "assigned:ai-coder"] none)
    [] ["assigned:ai-coder"] "assigned:ai-researcher" rfl
    (by intro l hl; cases hl) (by decide)

/-- C5: the GitHub parser never populates `project_status` (every parsed
issue carries `none`); hence `get_issues` with any non-absent status
filter returns the empty list whatever the provider sent, and
`start_coder_workflow` on any parsed issue fails its ToDo precondition
with no mutating call. -/
theorem C5_parser_leaves_status_absent :
    (∀ d : RawIssue, (parse_issue_data d).project_status = none) ∧
    (∀ (data : List RawIssue) (s : WorkflowStatus),
      get_issues data (some s) = []) ∧
    (∀ (env : ManagerEnv) (n : Nat) (d : RawIssue),
      env.get_issue_res n = some (parse_issue_data d) →
      start_coder_workflow env n =
        ({ success := false
           message := "Issue " ++ toString n ++
             " is not in ToDo status" }, [])) := by
  refine ⟨fun d => rfl, ?_, ?_⟩
  · intro data s
    unfold get_issues
    induction data with
    | nil => rfl
    | cons d rest ih =>
        simp only [List.map_cons, List.filter_cons]
        have hd : (parse_issue_data d).project_status = none := rfl
        simp only [hd]
        simpa using ih
  · intro env n d h
    unfold start_coder_workflow
    rw [h]
    have hd : (parse_issue_data d).project_status = none := rfl
    simp [hd]

/-- C5 (witness): the filter and the guard evaluated on a concrete
provider record carrying the `bug` label. -/
theorem C5_parser_leaves_status_absent_witness :
    get_issues [sample_raw] (some WorkflowStatus.TODO) = [] ∧
    start_coder_workflow parsed_env 7 =
      ({ success := false
         message := "Issue " ++ toString 7 ++ " is not in ToDo status" },
       []) :=
  ⟨C5_parser_leaves_status_absent.2.1 [sample_raw] WorkflowStatus.TODO,
   C5_parser_leaves_status_absent.2.2 parsed_env 7 sample_raw rfl⟩

/-- C8: branch names have the form `{prefix}/{number}/{slug}` with the
prefix derived by intersecting the labels with the five type labels
(`F` by default); on labels `{bug, priority:high, assigned:ai-coder}`
the prefix is `B`, and on `{priority:high}` it is the default `F`. -/
theorem C8_branch_name_format :
    (∀ i : Issue,
      (type_labels.filter (fun t => i.labels.contains t) = [] →
        generate_branch_name i =
          "F/" ++ toString i.number ++ "/" ++ i.get_short_name) ∧
      (∀ t, type_labels.filter (fun t0 => i.labels.contains t0) = [t] →
        generate_branch_name i = (branch_type_of_label t).value ++ "/" ++
          toString i.number ++ "/" ++ i.get_short_name)) ∧
    generate_branch_name (sample_issue 123 "Add user auth"
      ["bug", "priority:high", "assigned:ai-coder"] none) =
      "B/123/add-user-auth" ∧
    generate_branch_name (sample_issue 123 "Add user auth"
      ["priority:high"] none) = "F/123/add-user-auth" := by
  refine ⟨?_, by decide, by decide⟩
  intro i
  constructor
  · intro h
    unfold generate_branch_name get_branch_type_from_labels
    rw [h]
    rfl
  · intro t h
    unfold generate_branch_name get_branch_type_from_labels
    rw [h]

/-- C8 (witness): the two prefix-derivation branches instantiated on
concrete label sets. -/
theorem C8_branch_name_format_witness :
    generate_branch_name (sample_issue 123 "Add user auth"
      ["priority:high"] none) =
      "F/" ++ toString (123 : Nat) ++ "/" ++
        (sample_issue 123 "Add user auth" ["priority:high"] none).get_short_name ∧
    generate_branch_name (sample_issue 123 "Add user auth"
      ["bug", "priority:high", "assigned:ai-coder"] none) =
      (branch_type_of_label "bug").value ++ "/" ++ toString (123 : Nat) ++
        "/" ++ (sample_issue 123 "Add user auth"
          ["bug", "priority:high", "assigned:ai-coder"] none).get_short_name :=
  ⟨(C8_branch_name_format.1
      (sample_issue 123 "Add user auth" ["priority:high"] none)).1 (by decide),
   (C8_branch_name_format.1
      (sample_issue 123 "Add user auth"
        ["bug", "priority:high", "assigned:ai-coder"] none)).2 "bug" (by decide)⟩

/-- Unfolding the counting fold of `get_workflow_status`: the final
bucket of a status is the initial bucket plus the number of issues
carrying exactly that status. -/
theorem get_workflow_status_foldl (issues : List Issue)
    (m : WorkflowStatus → Nat) (s : WorkflowStatus) :
    (issues.foldl status_counts_step m) s =
      m s + (issues.filter (fun i => i.project_status = some s)).length := by
  induction issues generalizing m with
  | nil => simp
  | cons i rest ih =>
      rw [List.foldl_cons, ih]
      unfold status_counts_step
      cases hp : i.project_status with
      | none => simp [List.filter_cons, hp]
      | some s' =>
          by_cases hss : s = s'
          · subst hss
            simp [List.filter_cons, hp]
            omega
          · simp [List.filter_cons, hp, hss, Ne.symm hss]

/-- C9: `get_workflow_status` counts, over all five statuses, one per
fetched issue with that non-absent status (each bucket starts at zero);
an issue with absent status increments no bucket; on the four-issue
example {ToDo, ToDo, Doing, Done} the counts are
ToDo 2, Doing 1, Review 0, Testing 0, Done 1. -/
theorem C9_status_counts :
    (∀ (issues : List Issue) (s : WorkflowStatus),
      get_workflow_status issues s =
        (issues.filter (fun i => i.project_status = some s)).length) ∧
    (∀ (issues : List Issue) (i : Issue), i.project_status = none →
      ∀ s, get_workflow_status (issues ++ [i]) s =
        get_workflow_status issues s) ∧
    (get_workflow_status
        [sample_issue 1 "a" [] (some WorkflowStatus.TODO),
         sample_issue 2 "b" [] (some WorkflowStatus.TODO),
         sample_issue 3 "c" [] (some WorkflowStatus.DOING),
         sample_issue 4 "d" [] (some WorkflowStatus.DONE)] =
      fun s => match s with
        | WorkflowStatus.TODO => 2
        | WorkflowStatus.DOING => 1
        | WorkflowStatus.REVIEW => 0
        | WorkflowStatus.TESTING => 0
        | WorkflowStatus.DONE => 1) := by
  have hmain : ∀ (issues : List Issue) (s : WorkflowStatus),
      get_workflow_status issues s =
        (issues.filter (fun i => i.project_status = some s)).length := by
    intro issues s
    unfold get_workflow_status
    rw [get_workflow_status_foldl]
    omega
  refine ⟨hmain, ?_, ?_⟩
  · intro issues i hi s
    rw [hmain, hmain, List.filter_append]
    simp [List.filter_cons, hi]
  · funext s
    cases s <;> decide

/-- C9 (witness): the absent-status clause instantiated — appending an
issue with no board status changes no bucket of the example count. -/
theorem C9_status_counts_witness :
    ∀ s, get_workflow_status
        [sample_issue 1 "a" [] (some WorkflowStatus.TODO),
         sample_issue 5 "e" [] none] s =
      get_workflow_status [sample_issue 1 "a" [] (some WorkflowStatus.TODO)] s :=
  C9_status_counts.2.1 [sample_issue 1 "a" [] (some WorkflowStatus.TODO)]
    (sample_issue 5 "e" [] none) rfl

/-- C10: the factory matches the lowercased provider name to the
corresponding backend variant and raises a distinct unsupported-provider
error for every unrecognized name, never a default backend. -/
theorem C10_factory_provider_selection :
    ∀ (p : String) (t : AiaType) (c : WorkflowConfig),
      (py_lower p = "github" →
        create_manager p t c = Except.ok (AiaManager.github t c)) ∧
      (py_lower p = "gitlab" →
        create_manager p t c = Except.ok (AiaManager.gitlab t c)) ∧
      (py_lower p = "bitbucket" →
        create_manager p t c = Except.ok (AiaManager.bitbucket t c)) ∧
      (py_lower p ≠ "github" → py_lower p ≠ "gitlab" →
        py_lower p ≠ "bitbucket" →
        create_manager p t c =
          Except.error ("Unsupported Git provider: " ++ p)) := by
  intro p t c
  refine ⟨?_, ?_, ?_, ?_⟩
  · intro h
    unfold create_manager
    rw [h]
    rfl
  · intro h
    unfold create_manager
    rw [h]
    rfl
  · intro h
    unfold create_manager
    rw [h]
    rfl
  · intro h1 h2 h3
    unfold create_manager
    split
    · exact absurd (by assumption) h1
    · exact absurd (by assumption) h2
    · exact absurd (by assumption) h3
    · rfl

/-- C1: `complete_tester_workflow` on an issue assigned to ai-tester
performs, in order, PR creation (head = generated branch name, base =
configured default base branch), then the Done status update, then the
`assigned:ai-tester` label removal; if all three succeed the overall
result is a success, and if PR creation fails its result is returned
verbatim and neither later sub-step is attempted. -/
theorem C1_complete_tester_sequencing :
    ∀ (env : ManagerEnv) (config : WorkflowConfig) (n : Nat)
      (pr_title pr_body : String) (issue : Issue),
      env.get_issue_res n = some issue →
      issue.get_assigned_ai = some "ai-tester" →
      ((env.create_pr_res pr_title pr_body (generate_branch_name issue)
          config.default_base_branch).success = true →
        (env.update_issue_status_res issue
          WorkflowStatus.DONE).success = true →
        (env.remove_label_res issue "assigned:ai-tester").success = true →
        complete_tester_workflow env config n pr_title pr_body =
          ({ success := true
             message := "Completed tester workflow for issue " ++
               toString n ++ ", PR created" },
           [Call.create_pr pr_title pr_body (generate_branch_name issue)
              config.default_base_branch,
            Call.update_issue_status issue WorkflowStatus.DONE,
            Call.remove_label issue "assigned:ai-tester"])) ∧
      ((env.create_pr_res pr_title pr_body (generate_branch_name issue)
          config.default_base_branch).success = false →
        complete_tester_workflow env config n pr_title pr_body =
          (env.create_pr_res pr_title pr_body (generate_branch_name issue)
             config.default_base_branch,
           [Call.create_pr pr_title pr_body (generate_branch_name issue)
              config.default_base_branch])) := by
  intro env config n pr_title pr_body issue hget hassigned
  constructor
  · intro h1 h2 h3
    unfold complete_tester_workflow
    rw [hget]
    simp [hassigned, AiaType.value, h1, h2, h3]
  · intro h1
    unfold complete_tester_workflow
    rw [hget]
    simp [hassigned, AiaType.value, h1]

/-- C1 (witness): the two branches evaluated on concrete environments,
one with every call succeeding and one with PR creation failing. -/
theorem C1_complete_tester_sequencing_witness :
    complete_tester_workflow tester_env_ok sample_config 9 "T" "B" =
      ({ success := true
         message := "Completed tester workflow for issue " ++ toString 9 ++
           ", PR created" },
       [Call.create_pr "T" "B" (generate_branch_name tester_issue)
          sample_config.default_base_branch,
        Call.update_issue_status tester_issue WorkflowStatus.DONE,
        Call.remove_label tester_issue "assigned:ai-tester"]) ∧
    complete_tester_workflow tester_env_prfail sample_config 9 "T" "B" =
      (op_fail,
       [Call.create_pr "T" "B" (generate_branch_name tester_issue)
          sample_config.default_base_branch]) :=
  ⟨(C1_complete_tester_sequencing tester_env_ok sample_config 9 "T" "B"
      tester_issue rfl (by decide)).1 rfl rfl rfl,
   (C1_complete_tester_sequencing tester_env_prfail sample_config 9 "T" "B"
      tester_issue rfl (by decide)).2 rfl⟩

/-- C3: `start_coder_workflow` on an existing issue whose board status
is anything other than ToDo returns the precondition failure and makes
no mutating call at all (the trace is empty). -/
theorem C3_start_coder_guard :
    ∀ (env : ManagerEnv) (n : Nat) (issue : Issue),
      env.get_issue_res n = some issue →
      issue.project_status ≠ some WorkflowStatus.TODO →
      start_coder_workflow env n =
        ({ success := false
           message := "Issue " ++ toString n ++
             " is not in ToDo status" }, []) := by
  intro env n issue hget hst
  unfold start_coder_workflow
  rw [hget]
  simp [hst]

/-- C3 (witness): the guard evaluated on a concrete Doing issue. -/
theorem C3_start_coder_guard_witness :
    start_coder_workflow doing_env 4 =
      ({ success := false
         message := "Issue " ++ toString 4 ++ " is not in ToDo status" },
       []) :=
  C3_start_coder_guard doing_env 4
    (sample_issue 4 "Fix bug" ["bug"] (some WorkflowStatus.DOING)) rfl
    (by decide)

/-- C4 (counterexample): a failed label removal inside `assign_to_ai`
does not fail the overall operation (it returns the add-label success),
and a failed progress comment inside `trigger_ai_reviewer` still yields
an overall success — both contradict the claim that every sub-step's
failure is surfaced as the overall result. -/
theorem C4_counterexample :
    ((assign_to_ai fail_remove_label_env researcher_issue
        AiaType.AI_CODER).1.success = true ∧
     (assign_to_ai fail_remove_label_env researcher_issue
        AiaType.AI_CODER).2 =
       [Call.remove_label researcher_issue "assigned:ai-researcher",
        Call.add_label researcher_issue "assigned:ai-coder"] ∧
     (fail_remove_label_env.remove_label_res
        "assigned:ai-researcher").success = false) ∧
    ((trigger_ai_reviewer comment_fail_env sample_config).1.success = true ∧
     (comment_fail_env.comment_on_pr_res sample_config.repo_full_name 11
        reviewer_comment_text).success = false) := by
  decide

/-- C4 (amended): the coordinator's workflow transitions surface the
failure of their checked sub-steps verbatim (illustrated on
`start_coder_workflow`'s assignment step), but two kinds of sub-step are
exceptions: `assign_to_ai` discards its removal results and returns only
the add-label result, and `trigger_ai_reviewer` / `trigger_ai_tester`
treat a failed progress comment as a logged warning and still return
success. -/
theorem C4_failure_propagation :
    (∀ (env : LabelEnv) (i : Issue) (t : AiaType),
      (assign_to_ai env i t).1 =
        env.add_label_res ("assigned:" ++ t.value)) ∧
    (∀ (env : ManagerEnv) (config : WorkflowConfig) (issue : Issue)
       (rest : List Issue),
      env.get_issues_in_column_res WorkflowStatus.REVIEW = issue :: rest →
      (trigger_ai_reviewer env config).1.success = true) ∧
    (∀ (env : ManagerEnv) (config : WorkflowConfig) (issue : Issue)
       (rest : List Issue),
      env.get_issues_in_column_res WorkflowStatus.TESTING = issue :: rest →
      (trigger_ai_tester env config).1.success = true) ∧
    (∀ (env : ManagerEnv) (n : Nat) (issue : Issue),
      env.get_issue_res n = some issue →
      issue.project_status = some WorkflowStatus.TODO →
      (env.update_issue_status_res issue
        WorkflowStatus.DOING).success = true →
      (env.assign_to_ai_res issue AiaType.AI_CODER).success = false →
      (start_coder_workflow env n).1 =
        env.assign_to_ai_res issue AiaType.AI_CODER) := by
  refine ⟨fun env i t => rfl, ?_, ?_, ?_⟩
  · intro env config issue rest h
    unfold trigger_ai_reviewer
    rw [h]
  · intro env config issue rest h
    unfold trigger_ai_tester
    rw [h]
  · intro env n issue hget hst h1 h2
    unfold start_coder_workflow
    rw [hget]
    simp [hst, h1, h2]

/-- C4 (witness): the comment-tolerance and the assignment-propagation
clauses evaluated on concrete environments. -/
theorem C4_failure_propagation_witness :
    (trigger_ai_reviewer comment_fail_env sample_config).1.success = true ∧
    (start_coder_workflow coder_fail_env 2).1 = op_fail :=
  ⟨C4_failure_propagation.2.1 comment_fail_env sample_config
     review_issue [] rfl,
   C4_failure_propagation.2.2.2 coder_fail_env 2 todo_issue rfl rfl rfl rfl⟩

/-- C10 (witness): the factory on the mixed-case name `"GitHub"` and on
the unrecognized name `"codeberg"`. -/
theorem C10_factory_provider_selection_witness :
    create_manager "GitHub" AiaType.AI_CODER sample_config =
      Except.ok (AiaManager.github AiaType.AI_CODER sample_config) ∧
    create_manager "codeberg" AiaType.AI_CODER sample_config =
      Except.error ("Unsupported Git provider: " ++ "codeberg") :=
  ⟨(C10_factory_provider_selection "GitHub" AiaType.AI_CODER
      sample_config).1 (by decide),
   (C10_factory_provider_selection "codeberg" AiaType.AI_CODER
      sample_config).2.2.2 (by decide) (by decide) (by decide)⟩

end Abk
